import Mathlib

/-!
# Verification of the faugus-launcher game-launch and lifecycle-tracking core

A shallow embedding of the process-launch subsystem of the launcher
(`src/launcher/game_launcher.rs`, `src/launcher/launch_controller.rs`,
`src/proton/runner_resolver.rs`).

Modelling conventions:
* Filesystem and OS observations made by the code (binary discovery, path
  existence, the config-file contents, process-table liveness, signal
  delivery) are captured as explicit oracle inputs (`FsState`, `alive`,
  `termOk`), so every embedded operation is a pure function of the state it
  reads in the source.
* The persisted process registry (one JSON file, read and written wholesale)
  is embedded as `RegFile`: the file is absent, or present with contents that
  parse as a list of records, or present with malformed contents.
* Machine integers (pids) are `Nat`; none of the modelled code performs pid
  arithmetic, so overflow is not a concern.
-/

set_option autoImplicit false

namespace Faugus

/-- Helper for `str::split_whitespace`: accumulate the current token
(reversed) and emit it at each whitespace boundary; empty tokens are never
emitted. Structural recursion over the character list keeps this
kernel-evaluable. -/
def wsTokensAux : List Char → List Char → List String
  | [], acc => if acc.isEmpty then [] else [String.mk acc.reverse]
  | c :: rest, acc =>
    if c.isWhitespace then
      if acc.isEmpty then wsTokensAux rest []
      else String.mk acc.reverse :: wsTokensAux rest []
    else wsTokensAux rest (c :: acc)

/-- Rust's `str::split_whitespace`: the maximal non-whitespace runs of the
string, in order. -/
def wsTokens (s : String) : List String := wsTokensAux s.toList []

/-- `leadsWith pat l`: `pat` is an initial segment of `l`. -/
def leadsWith : List Char → List Char → Bool
  | [], _ => true
  | _ :: _, [] => false
  | p :: ps, h :: hs => p = h && leadsWith ps hs

/-- `hasSub pat l`: `pat` occurs contiguously inside `l`. -/
def hasSub (pat : List Char) : List Char → Bool
  | [] => leadsWith pat []
  | c :: rest => leadsWith pat (c :: rest) || hasSub pat rest

/-- Rust's `str::contains(pat)` for string patterns. -/
def strContains (hay pat : String) : Bool := hasSub pat.toList hay.toList

/-- Rust's `str::starts_with('/')`. -/
def startsWithSlash (s : String) : Bool :=
  match s.toList with
  | c :: _ => c = '/'
  | [] => false

/-- The filesystem/OS observations the launch path makes, captured as an
explicit oracle so the embedded operations are pure functions of it.
`losslessDll` stands for `Paths::find_lossless_dll()`, whose definition is
not part of the launch subsystem sources; it is only consumed here as "the
discovered library location, if any". -/
structure FsState where
  /-- `PathBuf::exists` on a given path string. -/
  pathExists : String → Bool
  /-- `Paths::mangohud()`: discovered mangohud binary, if any. -/
  mangohud : Option String
  /-- `Paths::gamemoderun()`: discovered gamemoderun binary, if any. -/
  gamemoderun : Option String
  /-- `Paths::find_lossless_dll()`: discovered frame-generation library. -/
  losslessDll : Option String
  /-- `std::fs::read_to_string(Paths::config_file())`: `none` models `Err`. -/
  config : Option String
  /-- `Paths::steam_compat_tools_dir()` as a path string. -/
  compatToolsDir : String

/-- `true` when the config file reads successfully and contains `pat`
(the `if let Ok(config) = read_to_string(...) { if config.contains(pat) }`
pattern in `setup_environment`). -/
def FsState.configHas (fs : FsState) (pat : String) : Bool :=
  match fs.config with
  | some cfg => strContains cfg pat
  | none => false

/-- The game descriptor fields read by the launch subsystem (`Game` in
`config/game_config.rs`; UI-only fields such as `banner`, `playtime`,
`hidden`, the `addapp*` group and the `lossless_*` sub-flags are never read
by the launcher and are omitted). The source field `prefix` is named
`prefixDir` here. -/
structure Game where
  gameid : String
  title : String
  path : String
  prefixDir : String
  launch_arguments : String
  game_arguments : String
  mangohud : Bool
  gamemode : Bool
  disable_hidraw : Bool
  protonfix : String
  runner : String
  lossless_enabled : Bool
  deriving DecidableEq, Repr

/-- Process information for running games (`GameProcess` in
`game_launcher.rs`): title is the key, `main_pid` the spawned child's pid,
`umu_pid` an optional secondary pid (always `none` at spawn time). -/
structure GameProcess where
  game_title : String
  main_pid : Nat
  umu_pid : Option Nat
  deriving DecidableEq, Repr

/-- The on-disk registry file (`running_games.json`): either the file does
not exist, or it exists and its contents parse as a list of records, or it
exists with contents that `serde_json` fails to parse. -/
inductive RegFile where
  | absent
  | valid (ps : List GameProcess)
  | malformed
  deriving DecidableEq, Repr

/-- The records a read of the registry file parses to (absent and malformed
both read as the empty list on the `get`/`save` paths). -/
def RegFile.records : RegFile → List GameProcess
  | .absent => []
  | .valid ps => ps
  | .malformed => []

namespace GameLauncher

/-- `GameLauncher::get_game_process`: returns `None` when the file is absent
or fails to read/parse (`.ok()?`); otherwise the first record whose
`game_title` matches. -/
def get_game_process (title : String) (f : RegFile) : Option GameProcess :=
  match f with
  | .absent => none
  | .malformed => none
  | .valid ps => ps.find? (fun p => p.game_title = title)

/-- `GameLauncher::save_process`: reads the existing file (absent → empty
list, malformed → `unwrap_or_default()` → empty list), appends the new
record with `push`, and writes the whole list back. -/
def save_process (p : GameProcess) (f : RegFile) : RegFile :=
  match f with
  | .absent => .valid [p]
  | .malformed => .valid [p]
  | .valid ps => .valid (ps ++ [p])

/-- `GameLauncher::remove_process`: absent file → `Ok` with nothing written;
a present file is parsed with `serde_json::from_str(&content)?`, so a parse
failure is propagated as an error (and nothing is written); on success the
records whose title matches are filtered out and the rest written back. -/
def remove_process (title : String) (f : RegFile) : Except String RegFile :=
  match f with
  | .absent => .ok .absent
  | .malformed => .error "invalid JSON"
  | .valid ps => .ok (.valid (ps.filter (fun p => p.game_title ≠ title)))

/-- The registry file after a `remove_process` call whose result the caller
ignores (`let _ = GameLauncher::remove_process(title)` in the controller):
on error nothing was written, so the file is unchanged. -/
def applyRemove (title : String) (f : RegFile) : RegFile :=
  match remove_process title f with
  | .ok f' => f'
  | .error _ => f

end GameLauncher

namespace runner_resolver

def UMU_PROTON_LATEST : String := "UMU-Proton Latest"

def GE_PROTON_LATEST : String := "GE-Proton Latest (default)"

def PROTON_EM_LATEST : String := "Proton-EM Latest"

/-- `RunnerError` in `runner_resolver.rs`. -/
inductive RunnerError where
  | NotInstalled (name : String)
  | InvalidPath (path : String)
  deriving DecidableEq, Repr

/-- The fixed system-wide compatibility-tools directory used by the
resolver and validator. -/
def systemCompatDir : String := "/usr/share/steam/compatibilitytools.d"

/-- `resolve_runner`: maps a display name to a `PROTONPATH` value. The Rust
function returns `Result` but every branch is `Ok`, so it is embedded as a
total function. -/
def resolve_runner (fs : FsState) (name : String) : String :=
  if name = UMU_PROTON_LATEST then ""
  else if name = GE_PROTON_LATEST then "Proton-GE Latest"
  else if name = PROTON_EM_LATEST then "Proton-EM Latest"
  else if name = "Proton-CachyOS" &&
      fs.pathExists (systemCompatDir ++ "/" ++ "Proton-CachyOS") then
    systemCompatDir ++ "/" ++ "Proton-CachyOS"
  else name

/-- `validate_runner`: resolves, then accepts an empty resolution; an
absolute resolution must exist on disk; a relative one must exist under the
user-level or the system-level compatibility-tools directory. -/
def validate_runner (fs : FsState) (name : String) : Except RunnerError Unit :=
  let resolved := resolve_runner fs name
  if resolved = "" then .ok ()
  else if startsWithSlash resolved then
    if fs.pathExists resolved then .ok ()
    else .error (.NotInstalled name)
  else if fs.pathExists (fs.compatToolsDir ++ "/" ++ resolved) then .ok ()
  else if fs.pathExists (systemCompatDir ++ "/" ++ resolved) then .ok ()
  else .error (.NotInstalled name)

end runner_resolver

/-- The environment-variable bag built by `setup_environment`, in insertion
order. -/
abbrev EnvMap := List (String × String)

/-- `Command::env(key, val)`: setting a key that is already present
overwrites its value (last write wins). -/
def envSet (m : EnvMap) (k v : String) : EnvMap :=
  m.filter (fun e => e.1 ≠ k) ++ [(k, v)]

/-- The value a key has in the built environment. -/
def envLookup (m : EnvMap) (k : String) : Option String :=
  (m.find? (fun e => e.1 = k)).map (fun e => e.2)

namespace GameLauncher

open runner_resolver

/-- The `cmd.env` calls of `setup_environment` up to and including the
WOW64 step (everything between the runner validation and the
lossless-scaling step), in source order. -/
def setup_env_pre (fs : FsState) (g : Game) : EnvMap :=
  let env : EnvMap := []
  let env := envSet env "WINEPREFIX" g.prefixDir
  let runner := resolve_runner fs g.runner
  let env := if runner ≠ "" then envSet env "PROTONPATH" runner else env
  let env := envSet env "GAMEID" g.gameid
  let env :=
    if g.mangohud then
      match fs.mangohud with
      | some _ => envSet env "MANGOHUD" "1"
      | none => env
    else env
  let env :=
    if g.gamemode then
      match fs.gamemoderun with
      | some p => envSet env "LD_PRELOAD" p
      | none => env
    else env
  let env := if g.disable_hidraw then envSet env "WINE_DISABLE_DISABLE_HIDRAW" "1" else env
  let env := if fs.configHas "wayland-driver=true" then envSet env "PROTON_USE_WINE_DXGI" "1" else env
  let env := if fs.configHas "enable-hdr=true" then envSet env "ENABLE_HDR" "1" else env
  let env := if fs.configHas "enable-wow64=true" then envSet env "WINEARCH" "win64" else env
  env

/-- The `cmd.env` calls of `setup_environment` from the lossless-scaling
step to the end, in source order, applied to the environment built so
far. -/
def setup_env_post (fs : FsState) (g : Game) (env : EnvMap) : EnvMap :=
  let env :=
    if g.lossless_enabled then
      match fs.losslessDll with
      | some dll => envSet (envSet env "WINEDLLOVERRIDES" "dxgi=n") "LD_PRELOAD" dll
      | none => env
    else env
  let env := if fs.configHas "discrete-gpu=true" then envSet env "__GLX_VENDOR_LIBRARY_NAME" "nvidia" else env
  let env :=
    if g.protonfix ≠ "" then
      envSet (envSet env "PROTON_NO_FSYNC" "1") "PROTON_NO_ESYNC" "1"
    else env
  let env :=
    if fs.configHas "enable-logging=true" then
      envSet (envSet env "WINEDEBUG" "+all") "WINE_MONO_TRACE" "E:System.Windows.Forms"
    else env
  env

/-- `GameLauncher::setup_environment`: the sequence of `cmd.env` calls in
source order (split here as `setup_env_pre` then `setup_env_post`); fails
exactly where the source propagates `validate_runner(&game.runner)?`. -/
def setup_environment (fs : FsState) (g : Game) : Except RunnerError EnvMap :=
  match validate_runner fs g.runner with
  | .error e => .error e
  | .ok () => .ok (setup_env_post fs g (setup_env_pre fs g))

/-- `GameLauncher::build_arguments`: executable path, then the
whitespace-split launch arguments (guarded by `!is_empty`), then the
whitespace-split game arguments. -/
def build_arguments (g : Game) : List String :=
  let args := [g.path]
  let args := if g.launch_arguments ≠ "" then args ++ wsTokens g.launch_arguments else args
  let args := if g.game_arguments ≠ "" then args ++ wsTokens g.game_arguments else args
  args

/-- `GameLauncher::is_process_running`: queries the OS process table,
embedded as the liveness oracle `alive`. -/
def is_process_running (alive : Nat → Bool) (pid : Nat) : Bool := alive pid

/-- `GameLauncher::terminate`: sends SIGTERM; the oracle `termOk` records
whether the `signal::kill` call succeeds for a pid. -/
def terminate (termOk : Nat → Bool) (pid : Nat) : Except String Unit :=
  if termOk pid then .ok () else .error "Failed to send SIGTERM to process"

/-- `GameLauncher::update_latest_games`, list level: drop every existing
occurrence of the title (`retain`), insert it at index 0, truncate to 10. -/
def update_latest_games (games : List String) (title : String) : List String :=
  let games := games.filter (fun g => g ≠ title)
  let games := title :: games
  games.take 10

/-- The I/O outcomes `GameLauncher::launch` observes, as oracles:
`dirsOk` for `ensure_directories`, `umuRun` for `get_umu_run` (`none` =
not found anywhere), `spawn` for `cmd.spawn()` (`none` = spawn error;
`some idOpt` = a child whose `child.id()` returned `idOpt`). -/
structure LaunchEnv where
  fs : FsState
  dirsOk : Bool
  umuRun : Option String
  spawn : Option (Option Nat)

/-- `GameLauncher::launch` in source order: ensure directories, locate
umu-run, build the environment (which validates the runner), build the
arguments, spawn. On success the record's `main_pid` is
`child.id().unwrap_or(0)` and `umu_pid` is `None`. The `anyhow` error
messages are abbreviated to fixed descriptive strings. -/
def launch (env : LaunchEnv) (g : Game) : Except String GameProcess :=
  if !env.dirsOk then .error "Failed to create directories"
  else
    match env.umuRun with
    | none => .error "umu-run not found. Please install UMU-Launcher."
    | some _ =>
      match setup_environment env.fs g with
      | .error _ => .error "Runner is not installed"
      | .ok _ =>
        match env.spawn with
        | none => .error "Failed to launch game"
        | some idOpt =>
          .ok { game_title := g.title, main_pid := idOpt.getD 0, umu_pid := none }

end GameLauncher

/-- `LaunchStatus` in `launch_controller.rs`. -/
inductive LaunchStatus where
  | NotRunning
  | Launching
  | Running (p : GameProcess)
  | Error (msg : String)
  deriving DecidableEq, Repr

/-- The controller's `HashMap<String, LaunchStatus>`, embedded as an
association list whose keys are kept unique by the operations below. -/
abbrev StatusMap := List (String × LaunchStatus)

/-- `HashMap::get`. -/
def mapGet (m : StatusMap) (k : String) : Option LaunchStatus :=
  (m.find? (fun e => e.1 = k)).map (fun e => e.2)

/-- `HashMap::insert`: replaces any entry with the same key. -/
def mapInsert (m : StatusMap) (k : String) (v : LaunchStatus) : StatusMap :=
  (k, v) :: m.filter (fun e => e.1 ≠ k)

/-- `HashMap::remove`. -/
def mapRemove (m : StatusMap) (k : String) : StatusMap :=
  m.filter (fun e => e.1 ≠ k)

/-- The controller-visible state: the in-memory status map plus the
persisted registry file it mutates through `GameLauncher`. -/
structure CtrlState where
  running_games : StatusMap
  reg : RegFile
  deriving DecidableEq, Repr

namespace GameLaunchController

/-- `GameLaunchController::get_status`: absent titles read as
`NotRunning`. -/
def get_status (st : CtrlState) (title : String) : LaunchStatus :=
  (mapGet st.running_games title).getD .NotRunning

/-- `GameLaunchController::terminate_game`: only a `Running` title is acted
on — SIGTERM first (an error there returns early, changing nothing), then
the in-memory entry is removed and the registry `remove_process` result is
ignored. The other three states return a descriptive error and change
nothing. -/
def terminate_game (termOk : Nat → Bool) (st : CtrlState) (title : String) :
    Except String Unit × CtrlState :=
  match get_status st title with
  | .Running p =>
    match GameLauncher.terminate termOk p.main_pid with
    | .error _ => (.error "Failed to terminate game", st)
    | .ok () =>
      (.ok (), { running_games := mapRemove st.running_games title,
                 reg := GameLauncher.applyRemove title st.reg })
  | .Launching => (.error "Game is still launching, please wait", st)
  | .NotRunning => (.error "Game is not running", st)
  | .Error _ => (.error "Game launch failed", st)

/-- `GameLaunchController::on_process_exited`: remove the in-memory entry
and the registry record (registry errors ignored). -/
def on_process_exited (st : CtrlState) (title : String) : CtrlState :=
  { running_games := mapRemove st.running_games title,
    reg := GameLauncher.applyRemove title st.reg }

/-- The test `check_processes` applies to an entry: it is `Running` and its
tracked `main_pid` is not in the OS process table. -/
def deadSel (alive : Nat → Bool) (e : String × LaunchStatus) : Bool :=
  match e.2 with
  | .Running p => !GameLauncher.is_process_running alive p.main_pid
  | _ => false

/-- The titles `check_processes` collects. -/
def deadTitles (alive : Nat → Bool) (m : StatusMap) : List String :=
  (m.filter (deadSel alive)).map (fun e => e.1)

/-- `GameLaunchController::check_processes`: collect the dead titles, then
run `on_process_exited` for each; returns the dead list. -/
def check_processes (alive : Nat → Bool) (st : CtrlState) :
    List String × CtrlState :=
  let dead := deadTitles alive st.running_games
  (dead, dead.foldl (fun s t => on_process_exited s t) st)

end GameLaunchController

/-! ## Concrete fixtures used by witnesses and counterexamples -/

/-- A filesystem state in which nothing is discoverable: no path exists, no
helper binary is found, and the config file does not read. -/
def fsNone : FsState :=
  { pathExists := fun _ => false
    mangohud := none
    gamemoderun := none
    losslessDll := none
    config := none
    compatToolsDir := "/home/user/.local/share/Steam/compatibilitytools.d" }

/-- A filesystem state in which the gamemoderun helper and the lossless
library are both discoverable. -/
def fsHelpers : FsState :=
  { fsNone with
    gamemoderun := some "/usr/bin/gamemoderun"
    losslessDll := some "/opt/lossless/Lossless.dll" }

/-- A plain game descriptor with the auto-selected runner, no arguments and
no toggles. -/
def gBase : Game :=
  { gameid := "id1"
    title := "Game A"
    path := "/games/a.exe"
    prefixDir := "/pfx/a"
    launch_arguments := ""
    game_arguments := ""
    mangohud := false
    gamemode := false
    disable_hidraw := false
    protonfix := ""
    runner := runner_resolver.UMU_PROTON_LATEST
    lossless_enabled := false }

/-- `gBase` with the spec's example launch/game argument strings. -/
def gArgs : Game :=
  { gBase with launch_arguments := "-foo -bar", game_arguments := "--baz" }

/-- `gBase` with an unknown runner name that is installed nowhere. -/
def gBadRunner : Game :=
  { gBase with runner := "DefinitelyNotInstalled-123" }

/-- `gBase` with both the GameMode and the lossless-scaling toggles on. -/
def gPreload : Game :=
  { gBase with gamemode := true, lossless_enabled := true }

def pA1 : GameProcess := { game_title := "Game A", main_pid := 101, umu_pid := none }

def pA2 : GameProcess := { game_title := "Game A", main_pid := 202, umu_pid := none }

def pB : GameProcess := { game_title := "Game B", main_pid := 707, umu_pid := none }

/-- A controller state with `Game A` (pid 101, dead in `aliveB`) and
`Game B` (pid 707, alive in `aliveB`) both `Running`, both persisted. -/
def stAB : CtrlState :=
  { running_games := [("Game A", .Running pA1), ("Game B", .Running pB)]
    reg := .valid [pA1, pB] }

/-- A liveness oracle under which only pid 707 is alive. -/
def aliveB : Nat → Bool := fun pid => pid = 707

/-- A launch environment where every I/O step succeeds but the spawned
child's `id()` is unavailable. -/
def envNoPid : GameLauncher.LaunchEnv :=
  { fs := fsNone
    dirsOk := true
    umuRun := some "/usr/bin/umu-run"
    spawn := some none }

/-- The controller state with no tracked titles and no registry file. -/
def stEmpty : CtrlState := { running_games := [], reg := .absent }

/-! ## Helper lemmas -/

theorem find?_filter {α : Type} (l : List α) (p q : α → Bool)
    (h : ∀ x, p x = true → q x = true) :
    (l.filter q).find? p = l.find? p := by
  induction l with
  | nil => rfl
  | cons a l ih =>
    by_cases hq : q a = true
    · by_cases hp : p a = true
      · simp [List.filter_cons, hq, List.find?, hp]
      · simp only [List.filter_cons, hq, if_true, List.find?]
        simp only [Bool.not_eq_true] at hp
        simp [hp, ih]
    · have hp : p a = false := by
        cases hpa : p a with
        | false => rfl
        | true => exact absurd (h a hpa) hq
      simp only [Bool.not_eq_true] at hq
      simp [List.filter_cons, hq, List.find?, hp, ih]

theorem envLookup_envSet_self (m : EnvMap) (k v : String) :
    envLookup (envSet m k v) k = some v := by
  have hnone : (m.filter (fun e => e.1 ≠ k)).find? (fun e => e.1 = k) = none := by
    rw [List.find?_eq_none]
    intro e he
    have := (List.mem_filter.mp he).2
    simp only [decide_eq_true_eq] at this ⊢
    exact this
  simp [envLookup, envSet, List.find?_append, hnone, List.find?]

theorem envLookup_envSet_other (m : EnvMap) (k v k' : String) (h : k' ≠ k) :
    envLookup (envSet m k v) k' = envLookup m k' := by
  have hfilter : (m.filter (fun e => e.1 ≠ k)).find? (fun e => e.1 = k') =
      m.find? (fun e => e.1 = k') := by
    apply find?_filter
    intro e he
    simp only [decide_eq_true_eq] at he ⊢
    rw [he]
    exact h
  have hsingle : ([(k, v)] : EnvMap).find? (fun e => e.1 = k') = none := by
    simp [List.find?, Ne.symm h]
  unfold envLookup envSet
  rw [List.find?_append, hfilter, hsingle, Option.or_none]

theorem get_game_process_applyRemove_self (title : String) (f : RegFile) :
    GameLauncher.get_game_process title (GameLauncher.applyRemove title f) = none := by
  cases f with
  | absent => rfl
  | malformed => rfl
  | valid ps =>
    show (ps.filter (fun p => p.game_title ≠ title)).find?
      (fun p => p.game_title = title) = none
    rw [List.find?_eq_none]
    intro p hp
    have := (List.mem_filter.mp hp).2
    simp only [decide_eq_true_eq] at this ⊢
    exact this

theorem get_game_process_applyRemove_other (t u : String) (f : RegFile) (h : u ≠ t) :
    GameLauncher.get_game_process t (GameLauncher.applyRemove u f) =
      GameLauncher.get_game_process t f := by
  cases f with
  | absent => rfl
  | malformed => rfl
  | valid ps =>
    show (ps.filter (fun p => p.game_title ≠ u)).find? (fun p => p.game_title = t) =
      ps.find? (fun p => p.game_title = t)
    apply find?_filter
    intro p hp
    simp only [decide_eq_true_eq] at hp ⊢
    rw [hp]
    exact Ne.symm h

theorem get_game_process_applyRemove_none (t u : String) (f : RegFile)
    (h : GameLauncher.get_game_process t f = none) :
    GameLauncher.get_game_process t (GameLauncher.applyRemove u f) = none := by
  by_cases hu : u = t
  · rw [hu]; exact get_game_process_applyRemove_self t f
  · rw [get_game_process_applyRemove_other t u f hu]; exact h

theorem mapGet_mapRemove_self (m : StatusMap) (k : String) :
    mapGet (mapRemove m k) k = none := by
  show ((m.filter (fun e => e.1 ≠ k)).find? (fun e => e.1 = k)).map _ = none
  have : (m.filter (fun e => e.1 ≠ k)).find? (fun e => e.1 = k) = none := by
    rw [List.find?_eq_none]
    intro e he
    have := (List.mem_filter.mp he).2
    simp only [decide_eq_true_eq] at this ⊢
    exact this
  rw [this]; rfl

theorem mapGet_mapRemove_other (m : StatusMap) (k u : String) (h : u ≠ k) :
    mapGet (mapRemove m u) k = mapGet m k := by
  show ((m.filter (fun e => e.1 ≠ u)).find? (fun e => e.1 = k)).map _ =
    ((m.find? (fun e => e.1 = k)).map _)
  rw [find?_filter]
  intro e he
  simp only [decide_eq_true_eq] at he ⊢
  rw [he]
  exact Ne.symm h

/-- Effect of the dead-title sweep's fold of `on_process_exited` over a
title list: a title in the list is gone from both the in-memory map and
the registry; a title not in the list keeps both lookups unchanged. -/
theorem fold_on_process_exited (ts : List String) (st : CtrlState) (k : String) :
    mapGet (ts.foldl (fun s t => GameLaunchController.on_process_exited s t)
        st).running_games k =
      (if k ∈ ts then none else mapGet st.running_games k) ∧
    GameLauncher.get_game_process k
        (ts.foldl (fun s t => GameLaunchController.on_process_exited s t) st).reg =
      (if k ∈ ts then none else GameLauncher.get_game_process k st.reg) := by
  induction ts generalizing st with
  | nil => simp
  | cons t ts ih =>
    have step := ih (GameLaunchController.on_process_exited st t)
    by_cases hk : k = t
    · subst hk
      by_cases hmem : k ∈ ts
      · simpa [hmem] using step
      · simp only [List.foldl_cons] at step ⊢
        rw [step.1, step.2]
        simp only [hmem, if_false, List.mem_cons, true_or, if_true]
        exact ⟨mapGet_mapRemove_self st.running_games k,
          get_game_process_applyRemove_self k st.reg⟩
    · have hmemiff : (k ∈ t :: ts) = (k ∈ ts) := by
        simp [List.mem_cons, hk]
      by_cases hmem : k ∈ ts
      · simp only [List.foldl_cons] at step ⊢
        rw [step.1, step.2]
        simp [hmem, hmemiff]
      · simp only [List.foldl_cons] at step ⊢
        rw [step.1, step.2]
        simp only [hmem, if_false, hmemiff]
        exact ⟨mapGet_mapRemove_other st.running_games k t (Ne.symm hk),
          get_game_process_applyRemove_other k t st.reg (Ne.symm hk)⟩

/-- In a map whose keys are unique, two entries with the same key are the
same entry. -/
theorem nodup_key_eq {m : StatusMap} (h : (m.map Prod.fst).Nodup)
    {e f : String × LaunchStatus} (he : e ∈ m) (hf : f ∈ m) (hk : e.1 = f.1) :
    e = f := by
  induction m with
  | nil => cases he
  | cons a m ih =>
    rw [List.map_cons, List.nodup_cons] at h
    cases List.mem_cons.mp he with
    | inl h1 =>
      cases List.mem_cons.mp hf with
      | inl h2 => rw [h1, h2]
      | inr h2 =>
        exfalso
        apply h.1
        rw [← h1, hk]
        exact List.mem_map_of_mem Prod.fst h2
    | inr h1 =>
      cases List.mem_cons.mp hf with
      | inl h2 =>
        exfalso
        apply h.1
        rw [← h2, ← hk]
        exact List.mem_map_of_mem Prod.fst h1
      | inr h2 => exact ih h.2 h1 h2

/-- `setup_environment` succeeds exactly when `validate_runner` does, and
its error is the validator's error. -/
theorem setup_environment_error_iff (fs : FsState) (g : Game)
    (e : runner_resolver.RunnerError) :
    GameLauncher.setup_environment fs g = .error e ↔
      runner_resolver.validate_runner fs g.runner = .error e := by
  unfold GameLauncher.setup_environment
  cases hv : runner_resolver.validate_runner fs g.runner with
  | error e' => simp
  | ok u => cases u; simp

theorem setup_environment_isOk (fs : FsState) (g : Game) :
    (GameLauncher.setup_environment fs g).isOk =
      (runner_resolver.validate_runner fs g.runner).isOk := by
  unfold GameLauncher.setup_environment
  cases hv : runner_resolver.validate_runner fs g.runner with
  | error e' => rfl
  | ok u => cases u; rfl

theorem wsTokens_nil : wsTokens "" = [] := rfl

/-- A successful map lookup comes from an entry of the list whose key
matches. -/
theorem mapGet_entry {m : StatusMap} {k : String} {s : LaunchStatus}
    (h : mapGet m k = some s) : ∃ e ∈ m, e.1 = k ∧ e.2 = s := by
  unfold mapGet at h
  cases hf : m.find? (fun x => x.1 = k) with
  | none => rw [hf] at h; cases h
  | some e =>
    rw [hf] at h
    have h2 : e.2 = s := by simpa using h
    have h1 : e.1 = k := by simpa using List.find?_some hf
    exact ⟨e, List.mem_of_find?_eq_some hf, h1, h2⟩

theorem mem_envSet {m : EnvMap} {k v k' v' : String} :
    (k', v') ∈ envSet m k v ↔ (k' = k ∧ v' = v) ∨ ((k', v') ∈ m ∧ k' ≠ k) := by
  simp only [envSet, List.mem_append, List.mem_filter, List.mem_singleton,
    Prod.mk.injEq, decide_eq_true_eq]
  constructor
  · rintro (⟨hm, hk⟩ | ⟨hk, hv⟩)
    · exact Or.inr ⟨hm, hk⟩
    · exact Or.inl ⟨hk, hv⟩
  · rintro (⟨hk, hv⟩ | ⟨hm, hk⟩)
    · exact Or.inr ⟨hk, hv⟩
    · exact Or.inl ⟨hm, hk⟩

theorem mem_envSet_other {m : EnvMap} {k v : String} {x : String × String}
    (hx : x.1 ≠ k) : x ∈ envSet m k v ↔ x ∈ m := by
  obtain ⟨x1, x2⟩ := x
  simp only at hx
  rw [mem_envSet]
  constructor
  · rintro (⟨h1, _⟩ | ⟨hm, _⟩)
    · exact absurd h1 hx
    · exact hm
  · intro hm
    exact Or.inr ⟨hm, hx⟩

theorem envLookup_ite (c : Prop) [Decidable c] (m : EnvMap) (k v key : String)
    (hk : k ≠ key) :
    envLookup (if c then envSet m k v else m) key = envLookup m key := by
  split
  · exact envLookup_envSet_other m k v key (Ne.symm hk)
  · rfl

theorem envLookup_ite2 (c : Prop) [Decidable c] (m : EnvMap)
    (k1 v1 k2 v2 key : String) (h1 : k1 ≠ key) (h2 : k2 ≠ key) :
    envLookup (if c then envSet (envSet m k1 v1) k2 v2 else m) key =
      envLookup m key := by
  split
  · rw [envLookup_envSet_other _ k2 v2 key (Ne.symm h2),
      envLookup_envSet_other _ k1 v1 key (Ne.symm h1)]
  · rfl

theorem mem_ite_envSet (c : Prop) [Decidable c] (m : EnvMap) (k v : String)
    (x : String × String) (hx : x.1 ≠ k) :
    (x ∈ if c then envSet m k v else m) ↔ x ∈ m := by
  split
  · exact mem_envSet_other hx
  · exact Iff.rfl

theorem mem_ite_envSet2 (c : Prop) [Decidable c] (m : EnvMap)
    (k1 v1 k2 v2 : String) (x : String × String) (hx1 : x.1 ≠ k1)
    (hx2 : x.1 ≠ k2) :
    (x ∈ if c then envSet (envSet m k1 v1) k2 v2 else m) ↔ x ∈ m := by
  split
  · rw [mem_envSet_other hx2, mem_envSet_other hx1]
  · exact Iff.rfl

/-! ## Claims -/

/-- C1, counterexample: `save_process` appends rather than upserting —
persisting two records that share the title `Game A` (pids 101 and 202)
starting from an absent registry leaves TWO records for that title, and the
lookup returns the record with the OLD pid, refuting "exactly one record for
that title, holding the latest pid". -/
theorem C1_counterexample :
    (GameLauncher.save_process pA2 (GameLauncher.save_process pA1 .absent)).records.countP
      (fun p => p.game_title = "Game A") = 2 ∧
    GameLauncher.get_game_process "Game A"
      (GameLauncher.save_process pA2 (GameLauncher.save_process pA1 .absent)) = some pA1 := by
  decide

/-- C1, amended: the persist operation appends unconditionally. Starting
from any registry holding no record for the title, persisting two records
that share that title (with any pids) leaves exactly TWO records for the
title, and the lookup returns the FIRST record persisted — the at-most-one
invariant is not maintained by `save_process` itself (it holds in the
controller's flow only because `remove_process` runs before a title is
re-persisted). -/
theorem C1_amended (f : RegFile) (p1 p2 : GameProcess)
    (ht : p2.game_title = p1.game_title)
    (h0 : f.records.countP (fun p => p.game_title = p1.game_title) = 0) :
    (GameLauncher.save_process p2 (GameLauncher.save_process p1 f)).records.countP
      (fun p => p.game_title = p1.game_title) = 2 ∧
    GameLauncher.get_game_process p1.game_title
      (GameLauncher.save_process p2 (GameLauncher.save_process p1 f)) = some p1 := by
  have hp1 : (fun p => decide (p.game_title = p1.game_title)) p1 = true := by simp
  have hp2 : (fun p => decide (p.game_title = p1.game_title)) p2 = true := by simp [ht]
  cases f with
  | absent =>
    constructor
    · simp only [GameLauncher.save_process, RegFile.records]
      simp [List.countP_cons, hp1, hp2]
    · simp only [GameLauncher.save_process, GameLauncher.get_game_process]
      simp [List.find?, hp1]
  | malformed =>
    constructor
    · simp only [GameLauncher.save_process, RegFile.records]
      simp [List.countP_cons, hp1, hp2]
    · simp only [GameLauncher.save_process, GameLauncher.get_game_process]
      simp [List.find?, hp1]
  | valid ps =>
    simp only [RegFile.records] at h0
    have hzero : ∀ p ∈ ps, ¬ ((fun p => decide (p.game_title = p1.game_title)) p = true) :=
      List.countP_eq_zero.mp h0
    have hnone : ps.find? (fun p => p.game_title = p1.game_title) = none :=
      List.find?_eq_none.mpr hzero
    constructor
    · simp only [GameLauncher.save_process, RegFile.records]
      rw [List.countP_append, List.countP_append, h0]
      simp [List.countP_cons, hp1, hp2]
    · simp only [GameLauncher.save_process, GameLauncher.get_game_process]
      rw [List.find?_append, List.find?_append, hnone]
      simp [List.find?, hp1]

/-- C1, witness: the amended statement instantiated with two records
titled `Game A`, pids 101 and 202, from the absent registry. -/
theorem C1_witness :
    pA2.game_title = pA1.game_title ∧
    (RegFile.absent.records.countP (fun p => p.game_title = pA1.game_title) = 0) ∧
    (GameLauncher.save_process pA2 (GameLauncher.save_process pA1 .absent)).records.countP
      (fun p => p.game_title = pA1.game_title) = 2 :=
  ⟨by decide, by decide, (C1_amended .absent pA1 pA2 (by decide) (by decide)).1⟩

/-- C3, counterexample: the read phase of the remove operation does NOT
treat a malformed registry file as empty — `remove_process` parses with
the question-mark operator on `serde_json::from_str` and propagates the
parse error. -/
theorem C3_counterexample :
    (GameLauncher.remove_process "Game A" RegFile.malformed).isOk = false := rfl

/-- C3, amended: on a malformed registry file the load/lookup path and the
read phase of persist behave as if the registry were empty (lookup finds
nothing; persist writes just the new record), but the read phase of remove
propagates the parse error to its caller and leaves the file unchanged. -/
theorem C3_amended (title : String) (p : GameProcess) :
    GameLauncher.get_game_process title .malformed = none ∧
    GameLauncher.save_process p .malformed = .valid [p] ∧
    (GameLauncher.remove_process title .malformed).isOk = false ∧
    GameLauncher.applyRemove title .malformed = .malformed :=
  ⟨rfl, rfl, rfl, rfl⟩

/-- C6: the built argument list is the executable path, then the
whitespace-split tokens of the launch-arguments string, then the
whitespace-split tokens of the game-arguments string; empty strings
contribute no tokens, so with both empty the list is exactly the path. -/
theorem C6_arguments (g : Game) :
    GameLauncher.build_arguments g =
      g.path :: (wsTokens g.launch_arguments ++ wsTokens g.game_arguments) ∧
    (g.launch_arguments = "" → g.game_arguments = "" →
      GameLauncher.build_arguments g = [g.path]) := by
  have main : GameLauncher.build_arguments g =
      g.path :: (wsTokens g.launch_arguments ++ wsTokens g.game_arguments) := by
    unfold GameLauncher.build_arguments
    by_cases h1 : g.launch_arguments = "" <;> by_cases h2 : g.game_arguments = "" <;>
      simp [h1, h2, wsTokens_nil]
  refine ⟨main, fun h1 h2 => ?_⟩
  rw [main, h1, h2, wsTokens_nil]
  rfl

/-- C6, witness: the spec's concrete instances — launch args `-foo -bar`
with game args `--baz` give the path followed by the three tokens; both
empty give just the path. -/
theorem C6_arguments_witness :
    (gBase.launch_arguments = "" ∧ gBase.game_arguments = "") ∧
    GameLauncher.build_arguments gBase = [gBase.path] ∧
    GameLauncher.build_arguments gArgs = [gArgs.path, "-foo", "-bar", "--baz"] :=
  ⟨⟨rfl, rfl⟩, (C6_arguments gBase).2 rfl rfl, by rw [(C6_arguments gArgs).1]; decide⟩

/-- C7: the recently-launched update puts the launched title first, removes
any earlier occurrence of it, and truncates to 10 entries; launching the 11
distinct titles T01..T11 in sequence yields exactly the 10 most recent,
most recent first, with T11 present and T01 evicted. -/
theorem C7_latest_games (games : List String) (title : String) :
    (GameLauncher.update_latest_games games title).head? = some title ∧
    title ∉ (GameLauncher.update_latest_games games title).tail ∧
    (GameLauncher.update_latest_games games title).length ≤ 10 ∧
    ["T01", "T02", "T03", "T04", "T05", "T06", "T07", "T08", "T09", "T10",
        "T11"].foldl GameLauncher.update_latest_games [] =
      ["T11", "T10", "T09", "T08", "T07", "T06", "T05", "T04", "T03", "T02"] := by
  have h1 : GameLauncher.update_latest_games games title =
      title :: (games.filter (fun g => g ≠ title)).take 9 := rfl
  refine ⟨by rw [h1]; rfl, ?_, ?_, by decide⟩
  · rw [h1]
    intro hmem
    have h2 : title ∈ games.filter (fun g => g ≠ title) :=
      List.take_subset 9 _ (by simpa using hmem)
    have := (List.mem_filter.mp h2).2
    simp at this
  · rw [h1]
    have := List.length_take 9 (games.filter (fun g => g ≠ title))
    simp only [List.length_cons, this]
    omega

/-- C2, counterexample: the environment builder is NOT failure-free — for a
descriptor whose runner name resolves to a string that is installed nowhere,
`setup_environment` propagates the validator's NotInstalled error instead of
passing the name through. -/
theorem C2_counterexample :
    GameLauncher.setup_environment fsNone gBadRunner =
      .error (.NotInstalled "DefinitelyNotInstalled-123") := rfl

/-- C2, amended: the builder is pure and deterministic — identical
descriptor and filesystem state give identical results — but it can fail:
it fails exactly when runner validation fails, with the validator's
NotInstalled error. -/
theorem C2_determinism (fs : FsState) (g : Game) :
    GameLauncher.setup_environment fs g = GameLauncher.setup_environment fs g ∧
    GameLauncher.build_arguments g = GameLauncher.build_arguments g ∧
    (GameLauncher.setup_environment fs g).isOk =
      (runner_resolver.validate_runner fs g.runner).isOk ∧
    (∀ e, GameLauncher.setup_environment fs g = .error e ↔
      runner_resolver.validate_runner fs g.runner = .error e) :=
  ⟨rfl, rfl, setup_environment_isOk fs g, setup_environment_error_iff fs g⟩

/-- C2, witness: the failure-equivalence conjunct instantiated at the
nothing-installed filesystem and the unknown-runner descriptor. -/
theorem C2_determinism_witness :
    (GameLauncher.setup_environment fsNone gBadRunner).isOk =
      (runner_resolver.validate_runner fsNone gBadRunner.runner).isOk :=
  (C2_determinism fsNone gBadRunner).2.2.1

/-- C8: runner validation succeeds exactly when the resolution is empty, or
is an absolute path that exists, or is relative and exists under the
user-level or system-level compatibility-tools directory; every failure is
NotInstalled carrying the original display name. -/
theorem C8_validate (fs : FsState) (name : String) :
    ((runner_resolver.validate_runner fs name).isOk = true ↔
      (runner_resolver.resolve_runner fs name = "" ∨
       (startsWithSlash (runner_resolver.resolve_runner fs name) = true ∧
         fs.pathExists (runner_resolver.resolve_runner fs name) = true) ∨
       (startsWithSlash (runner_resolver.resolve_runner fs name) = false ∧
         (fs.pathExists
            (fs.compatToolsDir ++ "/" ++ runner_resolver.resolve_runner fs name) = true ∨
          fs.pathExists
            (runner_resolver.systemCompatDir ++ "/" ++
              runner_resolver.resolve_runner fs name) = true)))) ∧
    (∀ e, runner_resolver.validate_runner fs name = .error e →
      e = .NotInstalled name) := by
  unfold runner_resolver.validate_runner
  by_cases h0 : runner_resolver.resolve_runner fs name = ""
  · simp [h0, Except.isOk, Except.toBool]
  · cases hs : startsWithSlash (runner_resolver.resolve_runner fs name) with
    | true =>
      cases hex : fs.pathExists (runner_resolver.resolve_runner fs name) with
      | true => simp [h0, hs, hex, Except.isOk, Except.toBool]
      | false => simp [h0, hs, hex, Except.isOk, Except.toBool]
    | false =>
      cases h1 : fs.pathExists
          (fs.compatToolsDir ++ "/" ++ runner_resolver.resolve_runner fs name) with
      | true => simp [h0, hs, h1, Except.isOk, Except.toBool]
      | false =>
        cases h2 : fs.pathExists
            (runner_resolver.systemCompatDir ++ "/" ++
              runner_resolver.resolve_runner fs name) with
        | true => simp [h0, hs, h1, h2, Except.isOk, Except.toBool]
        | false => simp [h0, hs, h1, h2, Except.isOk, Except.toBool]

/-- C8, witness: the auto-selection sentinel always validates, and the
failure case of the theorem is dischargeable at an uninstalled name. -/
theorem C8_validate_witness :
    (runner_resolver.validate_runner fsNone runner_resolver.UMU_PROTON_LATEST).isOk = true ∧
    runner_resolver.RunnerError.NotInstalled "DefinitelyNotInstalled-123" =
      .NotInstalled "DefinitelyNotInstalled-123" :=
  ⟨(C8_validate fsNone runner_resolver.UMU_PROTON_LATEST).1.mpr (Or.inl rfl),
   (C8_validate fsNone "DefinitelyNotInstalled-123").2 _ rfl⟩

/-- C4: termination changes no state on error — for a title whose status is
NotRunning, Launching, or Error, `terminate_game` returns the matching
descriptive error and the state (status map and registry) is unchanged; for
a Running title whose termination signal fails to send, it returns an error
and the state is likewise unchanged. -/
theorem C4_terminate (termOk : Nat → Bool) (st : CtrlState) (title : String)
    (h : ∀ p, GameLaunchController.get_status st title = .Running p →
      termOk p.main_pid = false) :
    (GameLaunchController.terminate_game termOk st title).1.isOk = false ∧
    (GameLaunchController.terminate_game termOk st title).2 = st ∧
    (GameLaunchController.get_status st title = .NotRunning →
      (GameLaunchController.terminate_game termOk st title).1 =
        .error "Game is not running") ∧
    (GameLaunchController.get_status st title = .Launching →
      (GameLaunchController.terminate_game termOk st title).1 =
        .error "Game is still launching, please wait") ∧
    (∀ m, GameLaunchController.get_status st title = .Error m →
      (GameLaunchController.terminate_game termOk st title).1 =
        .error "Game launch failed") := by
  cases hs : GameLaunchController.get_status st title with
  | NotRunning => simp [GameLaunchController.terminate_game, hs, Except.isOk, Except.toBool]
  | Launching => simp [GameLaunchController.terminate_game, hs, Except.isOk, Except.toBool]
  | Error m => simp [GameLaunchController.terminate_game, hs, Except.isOk, Except.toBool]
  | Running p =>
    have hf := h p hs
    simp [GameLaunchController.terminate_game, hs, GameLauncher.terminate, hf, Except.isOk, Except.toBool]

/-- C4, witness: terminating the untracked title in the empty controller
state errors with the NotRunning message and changes nothing, via the
theorem. -/
theorem C4_terminate_witness :
    (GameLaunchController.terminate_game (fun _ => true) stEmpty "Game A").1.isOk = false ∧
    (GameLaunchController.terminate_game (fun _ => true) stEmpty "Game A").2 = stEmpty ∧
    (GameLaunchController.terminate_game (fun _ => true) stEmpty "Game A").1 =
      .error "Game is not running" :=
  have h : ∀ p, GameLaunchController.get_status stEmpty "Game A" = .Running p →
      (fun _ => true : Nat → Bool) p.main_pid = false := fun p hp => by
    simp [GameLaunchController.get_status, mapGet, stEmpty, List.find?] at hp
  ⟨(C4_terminate (fun _ => true) stEmpty "Game A" h).1,
   (C4_terminate (fun _ => true) stEmpty "Game A" h).2.1,
   (C4_terminate (fun _ => true) stEmpty "Game A" h).2.2.1 rfl⟩


/-- C5: the periodic liveness sweep — a Running title whose tracked pid is
not alive is returned in the dead-games list, reads NotRunning afterwards,
and its registry record is gone; every Running title whose pid is alive
keeps its Running status and its registry lookup unchanged. -/
theorem C5_sweep (alive : Nat → Bool) (st : CtrlState) (title : String)
    (p : GameProcess)
    (hnodup : (st.running_games.map Prod.fst).Nodup)
    (hrun : mapGet st.running_games title = some (.Running p))
    (hdead : alive p.main_pid = false) :
    title ∈ (GameLaunchController.check_processes alive st).1 ∧
    GameLaunchController.get_status
      (GameLaunchController.check_processes alive st).2 title = .NotRunning ∧
    GameLauncher.get_game_process title
      (GameLaunchController.check_processes alive st).2.reg = none ∧
    (∀ t' p', mapGet st.running_games t' = some (.Running p') →
      alive p'.main_pid = true →
      GameLaunchController.get_status
        (GameLaunchController.check_processes alive st).2 t' = .Running p' ∧
      GameLauncher.get_game_process t'
        (GameLaunchController.check_processes alive st).2.reg =
        GameLauncher.get_game_process t' st.reg) := by
  obtain ⟨e, hem, hek, he2⟩ := mapGet_entry hrun
  have hc1 : (GameLaunchController.check_processes alive st).1 =
      GameLaunchController.deadTitles alive st.running_games := rfl
  have hc2 : (GameLaunchController.check_processes alive st).2 =
      (GameLaunchController.deadTitles alive st.running_games).foldl
        (fun s t => GameLaunchController.on_process_exited s t) st := rfl
  have hsel : GameLaunchController.deadSel alive e = true := by
    unfold GameLaunchController.deadSel
    rw [he2]
    simp [GameLauncher.is_process_running, hdead]
  have hdeadmem : title ∈ GameLaunchController.deadTitles alive st.running_games := by
    unfold GameLaunchController.deadTitles
    rw [← hek]
    exact List.mem_map_of_mem _ (List.mem_filter.mpr ⟨hem, hsel⟩)
  have hfold := fold_on_process_exited
    (GameLaunchController.deadTitles alive st.running_games) st title
  refine ⟨by rw [hc1]; exact hdeadmem, ?_, ?_, ?_⟩
  · unfold GameLaunchController.get_status
    rw [hc2, hfold.1, if_pos hdeadmem]
    rfl
  · rw [hc2, hfold.2, if_pos hdeadmem]
  · intro t' p' ht' ha'
    have hnd : t' ∉ GameLaunchController.deadTitles alive st.running_games := by
      intro hmem
      unfold GameLaunchController.deadTitles at hmem
      obtain ⟨e', he'f, he'1⟩ := List.mem_map.mp hmem
      have he'm : e' ∈ st.running_games := (List.mem_filter.mp he'f).1
      have he'sel : GameLaunchController.deadSel alive e' = true :=
        (List.mem_filter.mp he'f).2
      obtain ⟨f', hf'm, hf'1, hf'2⟩ := mapGet_entry ht'
      have hef : e' = f' := nodup_key_eq hnodup he'm hf'm (by rw [he'1, hf'1])
      rw [hef] at he'sel
      unfold GameLaunchController.deadSel at he'sel
      rw [hf'2] at he'sel
      simp [GameLauncher.is_process_running, ha'] at he'sel
    have hfold' := fold_on_process_exited
      (GameLaunchController.deadTitles alive st.running_games) st t'
    constructor
    · unfold GameLaunchController.get_status
      rw [hc2, hfold'.1, if_neg hnd, ht']
      rfl
    · rw [hc2, hfold'.2, if_neg hnd]

/-- C5, witness: in the state tracking `Game A` (pid 101) and `Game B`
(pid 707) with only 707 alive, the sweep reports `Game A` dead, resets its
status and clears its registry record. -/
theorem C5_sweep_witness :
    (stAB.running_games.map Prod.fst).Nodup ∧
    "Game A" ∈ (GameLaunchController.check_processes aliveB stAB).1 ∧
    GameLaunchController.get_status
      (GameLaunchController.check_processes aliveB stAB).2 "Game A" = .NotRunning ∧
    GameLauncher.get_game_process "Game A"
      (GameLaunchController.check_processes aliveB stAB).2.reg = none :=
  ⟨by decide,
   (C5_sweep aliveB stAB "Game A" pA1 (by decide) (by decide) (by decide)).1,
   (C5_sweep aliveB stAB "Game A" pA1 (by decide) (by decide) (by decide)).2.1,
   (C5_sweep aliveB stAB "Game A" pA1 (by decide) (by decide) (by decide)).2.2.1⟩

/-- C9: when every pre-spawn step succeeds and the spawn succeeds but the
child's OS pid is unavailable, `launch` still returns success, with a record
whose `main_pid` is 0; a liveness oracle with no pid 0 in the process table
then reports that record's pid as not running. -/
theorem C9_launch_pid_zero (env : GameLauncher.LaunchEnv) (g : Game)
    (hdirs : env.dirsOk = true)
    (humu : env.umuRun.isSome = true)
    (hval : (runner_resolver.validate_runner env.fs g.runner).isOk = true)
    (hspawn : env.spawn = some none) :
    GameLauncher.launch env g =
      .ok { game_title := g.title, main_pid := 0, umu_pid := none } ∧
    (∀ alive : Nat → Bool, alive 0 = false →
      GameLauncher.is_process_running alive 0 = false) := by
  constructor
  · obtain ⟨u, hu⟩ := Option.isSome_iff_exists.mp humu
    cases hv : runner_resolver.validate_runner env.fs g.runner with
    | error er => rw [hv] at hval; simp [Except.isOk, Except.toBool] at hval
    | ok un =>
      cases un
      unfold GameLauncher.launch
      rw [hdirs, hu, hspawn]
      simp [GameLauncher.setup_environment, hv]
  · intro alive h
    exact h

/-- C9, witness: the all-success launch environment with an unavailable
child pid yields a success record with pid 0 for the base game. -/
theorem C9_launch_pid_zero_witness :
    envNoPid.dirsOk = true ∧
    envNoPid.spawn = some none ∧
    GameLauncher.launch envNoPid gBase =
      .ok { game_title := gBase.title, main_pid := 0, umu_pid := none } :=
  ⟨rfl, rfl, (C9_launch_pid_zero envNoPid gBase rfl rfl rfl rfl).1⟩

/-- C10: when GameMode and lossless scaling are both enabled and both
helpers are discoverable, both rules write LD_PRELOAD: before the
lossless-scaling step the variable holds the gamemoderun path, and in the
final environment it holds the lossless library path, with the gamemoderun
binding absent altogether. -/
theorem C10_preload (fs : FsState) (g : Game) (gp lp : String)
    (hgm : g.gamemode = true) (hgmr : fs.gamemoderun = some gp)
    (hle : g.lossless_enabled = true) (hld : fs.losslessDll = some lp)
    (hne : gp ≠ lp) (e : EnvMap)
    (hok : GameLauncher.setup_environment fs g = .ok e) :
    envLookup (GameLauncher.setup_env_pre fs g) "LD_PRELOAD" = some gp ∧
    envLookup e "LD_PRELOAD" = some lp ∧
    ("LD_PRELOAD", gp) ∉ e := by
  have he : e = GameLauncher.setup_env_post fs g (GameLauncher.setup_env_pre fs g) := by
    unfold GameLauncher.setup_environment at hok
    cases hv : runner_resolver.validate_runner fs g.runner with
    | error er => rw [hv] at hok; cases hok
    | ok un =>
      cases un
      rw [hv] at hok
      injection hok with h
      exact h.symm
  subst he
  refine ⟨?_, ?_, ?_⟩
  · unfold GameLauncher.setup_env_pre
    simp only [hgm, hgmr, if_true]
    rw [envLookup_ite, envLookup_ite, envLookup_ite, envLookup_ite,
      envLookup_envSet_self]
    · decide
    · decide
    · decide
    · decide
  · unfold GameLauncher.setup_env_post
    simp only [hle, hld, if_true]
    rw [envLookup_ite2, envLookup_ite2, envLookup_ite, envLookup_envSet_self]
    · decide
    · decide
    · decide
    · decide
    · decide
  · unfold GameLauncher.setup_env_post
    simp only [hle, hld, if_true]
    rw [mem_ite_envSet2, mem_ite_envSet2, mem_ite_envSet]
    · intro hmem
      rcases mem_envSet.mp hmem with ⟨h1, h2⟩ | ⟨hm, hne2⟩
      · exact hne h2
      · exact hne2 rfl
    · exact (by decide : ("LD_PRELOAD" : String) ≠ "__GLX_VENDOR_LIBRARY_NAME")
    · exact (by decide : ("LD_PRELOAD" : String) ≠ "PROTON_NO_FSYNC")
    · exact (by decide : ("LD_PRELOAD" : String) ≠ "PROTON_NO_ESYNC")
    · exact (by decide : ("LD_PRELOAD" : String) ≠ "WINEDEBUG")
    · exact (by decide : ("LD_PRELOAD" : String) ≠ "WINE_MONO_TRACE")

/-- C10, witness: with both helpers discoverable and both toggles on for
the base game, the final LD_PRELOAD is the lossless library and the
gamemoderun binding is absent. -/
theorem C10_preload_witness :
    gPreload.gamemode = true ∧ gPreload.lossless_enabled = true ∧
    envLookup (GameLauncher.setup_env_post fsHelpers gPreload
      (GameLauncher.setup_env_pre fsHelpers gPreload)) "LD_PRELOAD" =
      some "/opt/lossless/Lossless.dll" ∧
    ("LD_PRELOAD", "/usr/bin/gamemoderun") ∉
      GameLauncher.setup_env_post fsHelpers gPreload
        (GameLauncher.setup_env_pre fsHelpers gPreload) :=
  ⟨rfl, rfl,
   (C10_preload fsHelpers gPreload "/usr/bin/gamemoderun" "/opt/lossless/Lossless.dll"
     rfl rfl rfl rfl (by decide) _ rfl).2.1,
   (C10_preload fsHelpers gPreload "/usr/bin/gamemoderun" "/opt/lossless/Lossless.dll"
     rfl rfl rfl rfl (by decide) _ rfl).2.2⟩

end Faugus
